import Mathlib

/-!
Shallow embedding of the decision core of the GridBNB-USDT futures bot:
`risk_manager.py` (AdvancedRiskManager) and `position_controller_futures.py`
(PositionControllerFutures).  Python floats are modelled as rationals,
fallible collaborator calls (exchange reads, order submission) as
`Except Unit` values, and the mutable attributes of each class as explicit
state records threaded through the functions.  Log calls are modelled as
emitted `LogEvent` values so that the logging discipline can be stated.
-/

namespace GridBNB

/-- Risk states of `risk_manager.py` (`class RiskState(enum.Enum)`). -/
inductive RiskState
  | ALLOW_ALL
  | ALLOW_SELL_ONLY
  | ALLOW_BUY_ONLY
deriving DecidableEq, Repr

/-- Configured threshold `settings.MAX_POSITION_RATIO` (0.8 per config_futures.py). -/
def max_position_ratio : ℚ := 8 / 10

/-- Configured threshold `settings.MIN_POSITION_RATIO` (0.1 per config_futures.py). -/
def min_position_ratio : ℚ := 1 / 10

/-- One entry of the list returned by `exchange.fetch_positions`, restricted to
the fields read by `risk_manager.py`: `symbol`, `notional`, `unrealizedPnl`. -/
structure RMPosition where
  symbol : String
  notional : ℚ
  unrealizedPnl : ℚ
deriving DecidableEq, Repr

/-- The loop in `_get_position_value`: the first entry whose symbol matches
yields `abs(notional)`; with no match the value stays 0. -/
def first_abs_notional (symbol : String) : List RMPosition → ℚ
  | [] => 0
  | p :: ps => if p.symbol = symbol then |p.notional| else first_abs_notional symbol ps

/-- The loop in `_get_position_ratio` extracting `unrealizedPnl` of the first
matching entry (0 with no match). -/
def first_unrealized_pnl (symbol : String) : List RMPosition → ℚ
  | [] => 0
  | p :: ps => if p.symbol = symbol then p.unrealizedPnl else first_unrealized_pnl symbol ps

/-- Embedding of `AdvancedRiskManager._get_position_value`: a failing `fetch_positions`
is caught inside the method and yields 0. -/
def get_position_value (symbol : String)
    (fetchPositions : Except Unit (List RMPosition)) : ℚ :=
  match fetchPositions with
  | .error _ => 0
  | .ok ps => first_abs_notional symbol ps

/-- Inputs consumed by `_get_position_ratio`: the `fetch_positions` call made
inside `_get_position_value`, the free/used USDT entries of the futures
balance argument, and the second, separate `fetch_positions` call used for
the unrealized PnL. -/
structure RatioInputs where
  fetchPositionsForValue : Except Unit (List RMPosition)
  freeUSDT : ℚ
  usedUSDT : ℚ
  fetchPositionsForPnl : Except Unit (List RMPosition)
deriving Repr

/-- Embedding of `AdvancedRiskManager._get_position_ratio` (risk_manager.py lines 108-145).
Any exception inside the method body — in particular a failing
`fetch_positions` — is caught by its own handler and yields 0.
`total_assets = free + used + unrealizedPnl`; non-positive total assets give
ratio 0; otherwise `ratio = position_value / (total_assets * leverage)`. -/
def get_position_ratio (symbol : String) (leverage : ℚ) (inp : RatioInputs) : ℚ :=
  match inp.fetchPositionsForPnl with
  | .error _ => 0
  | .ok positions =>
    let position_value := get_position_value symbol inp.fetchPositionsForValue
    let total_assets := inp.freeUSDT + inp.usedUSDT + first_unrealized_pnl symbol positions
    if total_assets ≤ 0 then 0
    else position_value / (total_assets * leverage)

/-- Mutable attributes of `AdvancedRiskManager` threaded explicitly:
the two log-deduplication flags and the lazily created
`last_position_ratio` attribute (`none` models the attribute not existing
yet, i.e. the `hasattr` probe failing). -/
structure RMState where
  min_limit_warning_logged : Bool
  max_limit_warning_logged : Bool
  last_position_ratio : Option ℚ
deriving DecidableEq, Repr

/-- Log lines emitted by `check_position_limits`, in emission order. -/
inductive LogEvent
  | statusInfo
  | maxLimitWarning
  | minLimitWarning
  | recoveredInfo
  | errorLog
deriving DecidableEq, Repr

/-- Result of one `check_position_limits` call: returned risk state, the
updated mutable attributes, and the log lines emitted during the call. -/
structure StepResult where
  result : RiskState
  rmState : RMState
  events : List LogEvent
deriving DecidableEq, Repr

/-- The body of `check_position_limits` after `position_ratio` has been
obtained (risk_manager.py lines 26-71): status-line rate limiting against
`last_position_ratio`, then the threshold classification with the
warn-once flag discipline. -/
def classify_step (st : RMState) (position_ratio : ℚ) : StepResult :=
  let last0 := st.last_position_ratio.getD position_ratio
  let logStatus := |position_ratio - last0| > 1 / 1000
  let last1 := if logStatus then position_ratio else last0
  let ev0 : List LogEvent := if logStatus then [.statusInfo] else []
  if position_ratio > max_position_ratio then
    { result := .ALLOW_SELL_ONLY
      rmState := { min_limit_warning_logged := false
                   max_limit_warning_logged := true
                   last_position_ratio := some last1 }
      events := ev0 ++ (if st.max_limit_warning_logged then [] else [.maxLimitWarning]) }
  else if position_ratio < min_position_ratio then
    { result := .ALLOW_BUY_ONLY
      rmState := { min_limit_warning_logged := true
                   max_limit_warning_logged := false
                   last_position_ratio := some last1 }
      events := ev0 ++ (if st.min_limit_warning_logged then [] else [.minLimitWarning]) }
  else
    { result := .ALLOW_ALL
      rmState := { min_limit_warning_logged := false
                   max_limit_warning_logged := false
                   last_position_ratio := some last1 }
      events := ev0 ++
        (if st.min_limit_warning_logged || st.max_limit_warning_logged then
          [.recoveredInfo] else []) }

/-- Inputs of one `check_position_limits` call.  `bodyException` models an
exception raised inside the body of `check_position_limits` itself (e.g. in
a logging or settings access), which is what the handler on lines 73-78
catches; exceptions raised while reading positions or balances are already
caught inside `_get_position_ratio` and never reach that handler. -/
structure CPLInput where
  ratioInputs : RatioInputs
  bodyException : Bool
deriving Repr

/-- Embedding of `AdvancedRiskManager.check_position_limits` (risk_manager.py lines 21-78). -/
def check_position_limits (symbol : String) (leverage : ℚ) (st : RMState)
    (inp : CPLInput) : StepResult :=
  if inp.bodyException then
    { result := .ALLOW_ALL
      rmState := { min_limit_warning_logged := false
                   max_limit_warning_logged := false
                   last_position_ratio := st.last_position_ratio }
      events := [.errorLog] }
  else
    classify_step st (get_position_ratio symbol leverage inp.ratioInputs)

/-- Iterate `classify_step` over a sequence of position ratios, collecting
the emitted log events of the whole run. -/
def run_ratios (st : RMState) : List ℚ → RMState × List LogEvent
  | [] => (st, [])
  | r :: rs =>
    let out := classify_step st r
    let rest := run_ratios out.rmState rs
    (rest.1, out.events ++ rest.2)

/-- Number of occurrences of a log event in an emitted event list. -/
def count_event (e : LogEvent) : List LogEvent → Nat
  | [] => 0
  | x :: xs => (if x = e then 1 else 0) + count_event e xs

/-! ## position_controller_futures.py -/

/-- One daily candle as used by `_fetch_and_calculate_s1_levels`: the high
(`k[2]`) and low (`k[3]`) entries of the OHLCV row. -/
structure Candle where
  high : ℚ
  low : ℚ
deriving DecidableEq, Repr

/-- Mutable S1 state of `PositionControllerFutures`: the daily band
(`None` until first successful computation) and its update timestamp. -/
structure S1State where
  s1_daily_high : Option ℚ
  s1_daily_low : Option ℚ
  s1_last_data_update_ts : ℚ
deriving DecidableEq, Repr

/-- Controller constant `self.s1_lookback = 52`. -/
def s1_lookback : Nat := 52

/-- Controller constant `self.s1_sell_target_pct = 0.50`. -/
def s1_sell_target_pct : ℚ := 1 / 2

/-- Controller constant `self.s1_buy_target_pct = 0.70`. -/
def s1_buy_target_pct : ℚ := 7 / 10

/-- Controller constant `self.leverage = 10`. -/
def s1_leverage : ℚ := 10

/-- Python's `max(float(k[2]) for k in relevant_klines)` over a nonempty list
(the value on the empty list is irrelevant: in Python that call raises,
and every use below is guarded by a nonemptiness check). -/
def max_high : List Candle → ℚ
  | [] => 0
  | c :: cs => cs.foldl (fun acc k => max acc k.high) c.high

/-- Python's `min(float(k[3]) for k in relevant_klines)` over a nonempty list. -/
def min_low : List Candle → ℚ
  | [] => 0
  | c :: cs => cs.foldl (fun acc k => min acc k.low) c.low

/-- Embedding of `PositionControllerFutures._fetch_and_calculate_s1_levels`
(position_controller_futures.py lines 40-68), with the `fetch_ohlcv` call
(requested with `limit = lookback + 2`, oldest first) modelled as an
`Except` input and `time.time()` as the `now` argument.  The Python slice
`klines[-(lookback + 1) : -1]` on a list of length `n ≥ lookback + 1`
keeps the elements at indices `n - (lookback + 1) .. n - 2`, i.e.
`(klines.drop (n - (lookback + 1))).take lookback`. -/
def fetch_and_calculate_s1_levels (lookback : Nat)
    (fetchOhlcv : Except Unit (List Candle)) (now : ℚ) (st : S1State) :
    S1State × Bool :=
  match fetchOhlcv with
  | .error _ => (st, false)
  | .ok klines =>
    if klines.isEmpty ∨ klines.length < lookback + 1 then (st, false)
    else
      let relevant_klines := (klines.drop (klines.length - (lookback + 1))).take lookback
      if relevant_klines.length < lookback then (st, false)
      else
        ({ s1_daily_high := some (max_high relevant_klines)
           s1_daily_low := some (min_low relevant_klines)
           s1_last_data_update_ts := now }, true)

/-- Spec-side description of the band window: the `lookback` most recent
completed candles, i.e. drop the newest candle and keep the last
`lookback` of the remainder. -/
def completed_window (lookback : Nat) (klines : List Candle) : List Candle :=
  klines.dropLast.drop (klines.length - 1 - lookback)

/-- Sides of a futures order / S1 action. -/
inductive OrderSide
  | SELL
  | BUY
deriving DecidableEq, Repr

/-- Sides of an open position as reported by the exchange (`'long'`/`'short'`;
`none` models a missing/None side). -/
inductive PosSide
  | long
  | short
deriving DecidableEq, Repr

/-- One entry of `fetch_positions` as read by
`PositionControllerFutures._get_current_position`, restricted to the
fields `check_and_execute` consumes: `symbol`, `side`, `contracts`. -/
structure FPositionEntry where
  symbol : String
  side : Option PosSide
  contracts : ℚ
deriving DecidableEq, Repr

/-- The position summary built by `_get_current_position`
(fields actually consumed downstream). -/
structure CurrentPosition where
  side : Option PosSide
  contracts : ℚ
deriving DecidableEq, Repr

/-- The loop in `_get_current_position`: first entry with matching symbol,
otherwise the all-zero summary. -/
def first_position (symbol : String) : List FPositionEntry → CurrentPosition
  | [] => { side := none, contracts := 0 }
  | p :: ps =>
    if p.symbol = symbol then { side := p.side, contracts := p.contracts }
    else first_position symbol ps

/-- Embedding of `PositionControllerFutures._get_current_position` (lines 77-101): a
failing `fetch_positions` is caught inside the method and yields the
all-zero summary. -/
def get_current_position (symbol : String)
    (fetchPositions : Except Unit (List FPositionEntry)) : CurrentPosition :=
  match fetchPositions with
  | .error _ => { side := none, contracts := 0 }
  | .ok ps => first_position symbol ps

/-- Embedding of `PositionControllerFutures._calculate_target_position_size`
(lines 103-132): the balance read is modelled as an `Except` carrying the
total USDT balance; any exception (and a non-positive balance) yields 0.
`target_notional = total * target_pct * leverage`,
`target_contracts = target_notional / price`, floored to 3 decimal places
(the default when the trader exposes no precision helper). -/
def calculate_target_position_size (leverage : ℚ) (fetchBalance : Except Unit ℚ)
    (target_pct current_price : ℚ) : ℚ :=
  match fetchBalance with
  | .error _ => 0
  | .ok total_balance =>
    if total_balance ≤ 0 then 0
    else
      let target_notional := total_balance * target_pct * leverage
      let target_contracts := target_notional / current_price
      let factor : ℚ := 10 ^ (3 : ℕ)
      ((Rat.floor (target_contracts * factor) : ℤ) : ℚ) / factor

/-- The `limits` metadata of `self.trader.symbol_info`
(`limits.cost.min`, `limits.amount.min`; `none` for a missing key). -/
structure SymbolLimits where
  cost_min : Option ℚ
  amount_min : Option ℚ
deriving DecidableEq, Repr

/-- Result of `exchange.create_futures_order` (fields read afterwards:
`average`, `filled`; `none` models a missing key, defaulted on read). -/
structure OrderResult where
  average : Option ℚ
  filled : Option ℚ
deriving DecidableEq, Repr

/-- A record appended to the order tracker (the fields that depend on the
inputs: side, fill price, fill amount). -/
structure TradeRecord where
  side : OrderSide
  price : ℚ
  amount : ℚ
deriving DecidableEq, Repr

/-- Outcome of `_execute_futures_adjustment`: whether
`create_futures_order` was reached at all, the method's boolean return
value, and the trades appended to the ledger. -/
structure ExecResult where
  orderSubmitted : Bool
  returnValue : Bool
  ledger : List TradeRecord
deriving DecidableEq, Repr

/-- Embedding of `PositionControllerFutures._execute_futures_adjustment`
(lines 134-192).  Gating order as in the source: non-positive amount,
invalid price, minimum contract size, minimum notional; only then is the
order submitted.  Defaults 0.001 contracts / 10 USDT apply when
`symbol_info` is absent. -/
def execute_futures_adjustment (current_price : ℚ)
    (symbol_info : Option SymbolLimits) (createOrder : Except Unit OrderResult)
    (hasOrderTracker : Bool) (side : OrderSide) (contracts_amount : ℚ) :
    ExecResult :=
  if contracts_amount ≤ 0 then { orderSubmitted := false, returnValue := false, ledger := [] }
  else if current_price ≤ 0 then { orderSubmitted := false, returnValue := false, ledger := [] }
  else
    let min_notional : ℚ := match symbol_info with
      | none => 10
      | some l => l.cost_min.getD 10
    let min_contracts : ℚ := match symbol_info with
      | none => 1 / 1000
      | some l => l.amount_min.getD (1 / 1000)
    if contracts_amount < min_contracts then
      { orderSubmitted := false, returnValue := false, ledger := [] }
    else if contracts_amount * current_price < min_notional then
      { orderSubmitted := false, returnValue := false, ledger := [] }
    else
      match createOrder with
      | .error _ => { orderSubmitted := true, returnValue := false, ledger := [] }
      | .ok order =>
        { orderSubmitted := true
          returnValue := true
          ledger :=
            if hasOrderTracker then
              [{ side := side
                 price := order.average.getD current_price
                 amount := order.filled.getD contracts_amount }]
            else [] }

/-- Inputs of one `check_and_execute` tick: the trader's current price, the
position read (caught inside `_get_current_position` on failure), the
balance read made in `check_and_execute` itself (an exception there is
caught by the tick's handler and aborts the tick), the separate balance
read made later inside `_calculate_target_position_size`, and the order
submission collaborators. -/
structure TickInputs where
  current_price : ℚ
  fetchPositions : Except Unit (List FPositionEntry)
  fetchBalanceTick : Except Unit ℚ
  fetchBalanceSizing : Except Unit ℚ
  symbol_info : Option SymbolLimits
  createOrder : Except Unit OrderResult
  hasOrderTracker : Bool
deriving Repr

/-- Observable outcome of one `check_and_execute` tick: the S1 intents
produced (side and amount; the source stores at most one in `s1_action`),
the call made to `_execute_futures_adjustment` (if any), and that call's
result (the no-op result when no call was made). -/
structure TickResult where
  intents : List (OrderSide × ℚ)
  execCall : Option (OrderSide × ℚ)
  execResult : ExecResult
deriving DecidableEq, Repr

/-- The tick outcome when no intent is produced and nothing is executed. -/
def noTradeTick : TickResult :=
  { intents := []
    execCall := none
    execResult := { orderSubmitted := false, returnValue := false, ledger := [] } }

/-- Embedding of `PositionControllerFutures.check_and_execute`
(position_controller_futures.py lines 194-261): no-op while the band is
unset; abort on invalid price, on a failing balance read, or on a
non-positive total balance; then the upper-breach rule
(price above `s1_daily_high` and position ratio above the sell target) is
checked first and, via `elif`, the lower-breach rule only otherwise.
Target sizing is invoked inside the triggered branch; execution is gated
on `risk_state`. -/
def check_and_execute (symbol : String) (st : S1State) (risk_state : RiskState)
    (inp : TickInputs) : TickResult :=
  match st.s1_daily_high, st.s1_daily_low with
  | some s1_daily_high, some s1_daily_low =>
    if inp.current_price ≤ 0 then noTradeTick
    else
      let cp := get_current_position symbol inp.fetchPositions
      match inp.fetchBalanceTick with
      | .error _ => noTradeTick
      | .ok total_balance =>
        if total_balance ≤ 0 then noTradeTick
        else
          let current_position_pct :=
            |cp.contracts| * inp.current_price / (total_balance * s1_leverage)
          if inp.current_price > s1_daily_high ∧
              current_position_pct > s1_sell_target_pct then
            let target_contracts := calculate_target_position_size s1_leverage
              inp.fetchBalanceSizing s1_sell_target_pct inp.current_price
            if cp.side = some .long ∧ target_contracts < cp.contracts then
              let reduce_amount := cp.contracts - target_contracts
              if risk_state ≠ .ALLOW_BUY_ONLY then
                { intents := [(.SELL, reduce_amount)]
                  execCall := some (.SELL, reduce_amount)
                  execResult := execute_futures_adjustment inp.current_price
                    inp.symbol_info inp.createOrder inp.hasOrderTracker
                    .SELL reduce_amount }
              else
                { intents := [(.SELL, reduce_amount)]
                  execCall := none
                  execResult := { orderSubmitted := false, returnValue := false, ledger := [] } }
            else noTradeTick
          else if inp.current_price < s1_daily_low ∧
              current_position_pct < s1_buy_target_pct then
            let target_contracts := calculate_target_position_size s1_leverage
              inp.fetchBalanceSizing s1_buy_target_pct inp.current_price
            if cp.side ≠ some .short ∧ cp.contracts < target_contracts then
              let increase_amount := target_contracts - cp.contracts
              if risk_state ≠ .ALLOW_SELL_ONLY then
                { intents := [(.BUY, increase_amount)]
                  execCall := some (.BUY, increase_amount)
                  execResult := execute_futures_adjustment inp.current_price
                    inp.symbol_info inp.createOrder inp.hasOrderTracker
                    .BUY increase_amount }
              else
                { intents := [(.BUY, increase_amount)]
                  execCall := none
                  execResult := { orderSubmitted := false, returnValue := false, ledger := [] } }
            else noTradeTick
          else noTradeTick
  | _, _ => noTradeTick

/-! ## Spec-side definitions (worded from spec.md, for refinement statements) -/

/-- The position ratio as the spec words it (spec.md 4.1): equity =
freeQuoteBalance + usedQuoteBalance + unrealizedPnL; positionRatio =
abs notional / (equity * leverage), and 0 whenever equity is non-positive. -/
def spec_position_ratio (free used pnl notional leverage : ℚ) : ℚ :=
  if free + used + pnl ≤ 0 then 0
  else |notional| / ((free + used + pnl) * leverage)

/-- The threshold classification as the spec words it (spec.md 4.1):
ratio above MAX gives ALLOW_SELL_ONLY, ratio below MIN gives
ALLOW_BUY_ONLY, otherwise ALLOW_ALL. -/
def spec_risk_state (r : ℚ) : RiskState :=
  if r > max_position_ratio then .ALLOW_SELL_ONLY
  else if r < min_position_ratio then .ALLOW_BUY_ONLY
  else .ALLOW_ALL

/-! ## Theorems -/

/-- C1 counterexample: with the position fetch failing (an exception while
reading the snapshots / computing the ratio), `check_position_limits`
returns ALLOW_BUY_ONLY — not ALLOW_ALL — and sets the min-breach warning
flag instead of resetting both flags: the failure is caught inside
`_get_position_ratio`, which yields ratio 0, below MIN_POSITION_RATIO. -/
theorem check_position_limits_read_failure_counterexample :
    (check_position_limits "BNB/USDT" 10
        { min_limit_warning_logged := false
          max_limit_warning_logged := false
          last_position_ratio := none }
        { ratioInputs :=
            { fetchPositionsForValue := .error ()
              freeUSDT := 100
              usedUSDT := 0
              fetchPositionsForPnl := .error () }
          bodyException := false }).result = .ALLOW_BUY_ONLY ∧
    RiskState.ALLOW_BUY_ONLY ≠ RiskState.ALLOW_ALL ∧
    (check_position_limits "BNB/USDT" 10
        { min_limit_warning_logged := false
          max_limit_warning_logged := false
          last_position_ratio := none }
        { ratioInputs :=
            { fetchPositionsForValue := .error ()
              freeUSDT := 100
              usedUSDT := 0
              fetchPositionsForPnl := .error () }
          bodyException := false }).rmState.min_limit_warning_logged = true := by
  refine ⟨?_, by decide, ?_⟩ <;> with_unfolding_all rfl

/-- C1 amended: an exception raised while reading the position/balance
snapshots or computing the ratio is caught inside `_get_position_ratio`,
which returns 0, so `check_position_limits` returns ALLOW_BUY_ONLY with
the min-breach flag set and the max-breach flag cleared; only an exception
raised in the body of `check_position_limits` itself (outside the ratio
helper) makes it reset both flags and return ALLOW_ALL. -/
theorem check_position_limits_exception_amended
    (sym : String) (leverage : ℚ) (st : RMState) (inp : CPLInput) :
    (inp.bodyException = true →
      (check_position_limits sym leverage st inp).result = .ALLOW_ALL ∧
      (check_position_limits sym leverage st inp).rmState.min_limit_warning_logged = false ∧
      (check_position_limits sym leverage st inp).rmState.max_limit_warning_logged = false) ∧
    (inp.bodyException = false →
      inp.ratioInputs.fetchPositionsForPnl = .error () →
      (check_position_limits sym leverage st inp).result = .ALLOW_BUY_ONLY ∧
      (check_position_limits sym leverage st inp).rmState.min_limit_warning_logged = true ∧
      (check_position_limits sym leverage st inp).rmState.max_limit_warning_logged = false) := by
  constructor
  · intro h
    simp [check_position_limits, h]
  · intro h hfail
    have hr : get_position_ratio sym leverage inp.ratioInputs = 0 := by
      simp [get_position_ratio, hfail]
    simp only [check_position_limits, h, if_false, Bool.false_eq_true, hr]
    have h1 : ¬ ((0:ℚ) > max_position_ratio) := by norm_num [max_position_ratio]
    have h2 : (0:ℚ) < min_position_ratio := by norm_num [min_position_ratio]
    simp [classify_step, h1, h2]

/-- Witness for the amended C1 theorem at concrete inputs. -/
theorem check_position_limits_exception_amended_witness :
    ((check_position_limits "BNB/USDT" 10
        { min_limit_warning_logged := true
          max_limit_warning_logged := true
          last_position_ratio := none }
        { ratioInputs :=
            { fetchPositionsForValue := .ok []
              freeUSDT := 0
              usedUSDT := 0
              fetchPositionsForPnl := .ok [] }
          bodyException := true }).result = .ALLOW_ALL ∧
      (check_position_limits "BNB/USDT" 10
        { min_limit_warning_logged := true
          max_limit_warning_logged := true
          last_position_ratio := none }
        { ratioInputs :=
            { fetchPositionsForValue := .ok []
              freeUSDT := 0
              usedUSDT := 0
              fetchPositionsForPnl := .ok [] }
          bodyException := true }).rmState.min_limit_warning_logged = false ∧
      (check_position_limits "BNB/USDT" 10
        { min_limit_warning_logged := true
          max_limit_warning_logged := true
          last_position_ratio := none }
        { ratioInputs :=
            { fetchPositionsForValue := .ok []
              freeUSDT := 0
              usedUSDT := 0
              fetchPositionsForPnl := .ok [] }
          bodyException := true }).rmState.max_limit_warning_logged = false) ∧
    ((check_position_limits "BNB/USDT" 10
        { min_limit_warning_logged := false
          max_limit_warning_logged := true
          last_position_ratio := none }
        { ratioInputs :=
            { fetchPositionsForValue := .error ()
              freeUSDT := 5
              usedUSDT := 5
              fetchPositionsForPnl := .error () }
          bodyException := false }).result = .ALLOW_BUY_ONLY ∧
      (check_position_limits "BNB/USDT" 10
        { min_limit_warning_logged := false
          max_limit_warning_logged := true
          last_position_ratio := none }
        { ratioInputs :=
            { fetchPositionsForValue := .error ()
              freeUSDT := 5
              usedUSDT := 5
              fetchPositionsForPnl := .error () }
          bodyException := false }).rmState.min_limit_warning_logged = true ∧
      (check_position_limits "BNB/USDT" 10
        { min_limit_warning_logged := false
          max_limit_warning_logged := true
          last_position_ratio := none }
        { ratioInputs :=
            { fetchPositionsForValue := .error ()
              freeUSDT := 5
              usedUSDT := 5
              fetchPositionsForPnl := .error () }
          bodyException := false }).rmState.max_limit_warning_logged = false) :=
  ⟨(check_position_limits_exception_amended "BNB/USDT" 10
      { min_limit_warning_logged := true
        max_limit_warning_logged := true
        last_position_ratio := none }
      { ratioInputs :=
          { fetchPositionsForValue := .ok []
            freeUSDT := 0
            usedUSDT := 0
            fetchPositionsForPnl := .ok [] }
        bodyException := true }).1 rfl,
   (check_position_limits_exception_amended "BNB/USDT" 10
      { min_limit_warning_logged := false
        max_limit_warning_logged := true
        last_position_ratio := none }
      { ratioInputs :=
          { fetchPositionsForValue := .error ()
            freeUSDT := 5
            usedUSDT := 5
            fetchPositionsForPnl := .error () }
        bodyException := false }).2 rfl rfl⟩

/-- C2: on a successful snapshot read, `check_position_limits` computes
the ratio exactly as the spec states (equity = free + used + unrealized
PnL, ratio = abs notional / (equity * leverage), 0 on non-positive equity)
and classifies it against the thresholds: ALLOW_SELL_ONLY iff the ratio
exceeds MAX_POSITION_RATIO, ALLOW_BUY_ONLY iff it is below
MIN_POSITION_RATIO, ALLOW_ALL otherwise; in particular ratio 0.85 gives
ALLOW_SELL_ONLY, 0.05 gives ALLOW_BUY_ONLY, 0.5 gives ALLOW_ALL. -/
theorem check_position_limits_threshold_spec
    (sym : String) (leverage free used notional pnl r : ℚ) (st : RMState) :
    (get_position_ratio sym leverage
        { fetchPositionsForValue := .ok [{ symbol := sym, notional := notional, unrealizedPnl := pnl }]
          freeUSDT := free
          usedUSDT := used
          fetchPositionsForPnl := .ok [{ symbol := sym, notional := notional, unrealizedPnl := pnl }] } =
      spec_position_ratio free used pnl notional leverage) ∧
    ((check_position_limits sym leverage st
        { ratioInputs :=
            { fetchPositionsForValue := .ok [{ symbol := sym, notional := notional, unrealizedPnl := pnl }]
              freeUSDT := free
              usedUSDT := used
              fetchPositionsForPnl := .ok [{ symbol := sym, notional := notional, unrealizedPnl := pnl }] }
          bodyException := false }).result =
      spec_risk_state (spec_position_ratio free used pnl notional leverage)) ∧
    ((classify_step st r).result = .ALLOW_SELL_ONLY ↔ r > max_position_ratio) ∧
    ((classify_step st r).result = .ALLOW_BUY_ONLY ↔ r < min_position_ratio) ∧
    ((classify_step st r).result = .ALLOW_ALL ↔
      (min_position_ratio ≤ r ∧ r ≤ max_position_ratio)) ∧
    (classify_step st (85/100)).result = .ALLOW_SELL_ONLY ∧
    (classify_step st (5/100)).result = .ALLOW_BUY_ONLY ∧
    (classify_step st (1/2)).result = .ALLOW_ALL := by
  have hratio : get_position_ratio sym leverage
      { fetchPositionsForValue := .ok [{ symbol := sym, notional := notional, unrealizedPnl := pnl }]
        freeUSDT := free
        usedUSDT := used
        fetchPositionsForPnl := .ok [{ symbol := sym, notional := notional, unrealizedPnl := pnl }] } =
      spec_position_ratio free used pnl notional leverage := by
    simp [get_position_ratio, get_position_value, first_abs_notional,
      first_unrealized_pnl, spec_position_ratio]
  have hresult : ∀ q : ℚ, (classify_step st q).result = spec_risk_state q := by
    intro q
    simp only [classify_step, spec_risk_state]
    split_ifs <;> rfl
  refine ⟨hratio, ?_, ?_, ?_, ?_, ?_, ?_, ?_⟩
  · simp only [check_position_limits, if_false, Bool.false_eq_true, hratio, hresult]
  · rw [hresult]
    unfold spec_risk_state
    split_ifs with h1 h2
    · simp [h1]
    · simp [h1]
    · simp [h1]
  · rw [hresult]
    unfold spec_risk_state
    split_ifs with h1 h2
    · have hnot : ¬ r < min_position_ratio := by
        rw [max_position_ratio] at h1
        rw [min_position_ratio]
        intro hc
        linarith
      simp [hnot]
    · simp [h2]
    · simp [h2]
  · rw [hresult]
    unfold spec_risk_state
    split_ifs with h1 h2
    · exact ⟨fun h => absurd h (by decide), fun h => absurd h1 (not_lt.mpr h.2)⟩
    · exact ⟨fun h => absurd h (by decide), fun h => absurd h2 (not_lt.mpr h.1)⟩
    · exact ⟨fun _ => ⟨le_of_not_lt h2, le_of_not_lt h1⟩, fun _ => rfl⟩
  · rw [hresult]; norm_num [spec_risk_state, max_position_ratio, min_position_ratio]
  · rw [hresult]; norm_num [spec_risk_state, max_position_ratio, min_position_ratio]
  · rw [hresult]; norm_num [spec_risk_state, max_position_ratio, min_position_ratio]

theorem count_event_append (e : LogEvent) (xs ys : List LogEvent) :
    count_event e (xs ++ ys) = count_event e xs + count_event e ys := by
  induction xs with
  | nil => simp [count_event]
  | cons x xs ih => simp [count_event, ih, Nat.add_assoc]

theorem classify_step_count_max (st : RMState) (r : ℚ) :
    count_event .maxLimitWarning (classify_step st r).events =
      if r > max_position_ratio ∧ st.max_limit_warning_logged = false then 1
      else 0 := by
  simp only [classify_step]
  split_ifs with h1 h2 <;> simp_all [count_event, count_event_append]

theorem classify_step_count_min (st : RMState) (r : ℚ) :
    count_event .minLimitWarning (classify_step st r).events =
      if ¬ r > max_position_ratio ∧ r < min_position_ratio ∧
          st.min_limit_warning_logged = false then 1
      else 0 := by
  simp only [classify_step]
  split_ifs with h1 h2 <;> simp_all [count_event, count_event_append]

theorem classify_step_count_recovered (st : RMState) (r : ℚ) :
    count_event .recoveredInfo (classify_step st r).events =
      if ¬ r > max_position_ratio ∧ ¬ r < min_position_ratio ∧
          (st.min_limit_warning_logged = true ∨ st.max_limit_warning_logged = true) then 1
      else 0 := by
  simp only [classify_step]
  split_ifs with h1 h2 <;> simp_all [count_event, count_event_append]

theorem classify_step_max_flag (st : RMState) (r : ℚ) :
    ((classify_step st r).rmState.max_limit_warning_logged = true ↔
      r > max_position_ratio) := by
  simp only [classify_step]
  split_ifs with h1 h2 <;> simp_all

theorem classify_step_min_flag (st : RMState) (r : ℚ) :
    ((classify_step st r).rmState.min_limit_warning_logged = true ↔
      (¬ r > max_position_ratio ∧ r < min_position_ratio)) := by
  simp only [classify_step]
  split_ifs with h1 h2 <;> simp_all

/-- C9: over a sequence of `check_position_limits` calls, a breach warning
is emitted at most once per uninterrupted breach episode — two consecutive
ratios above MAX produce exactly one warning; the flag is cleared when the
ratio re-enters the safe band or the opposite breach occurs, so
breach-safe-breach produces exactly two warnings; and transitioning from a
breach back to the safe band emits exactly one recovered notice. -/
theorem breach_warning_discipline (st : RMState) (r1 r2 r3 : ℚ) :
    (st.max_limit_warning_logged = false → r1 > max_position_ratio →
      r2 > max_position_ratio →
      count_event .maxLimitWarning (run_ratios st [r1, r2]).2 = 1) ∧
    (¬ r1 > max_position_ratio → ¬ r1 < min_position_ratio →
      (classify_step st r1).rmState.max_limit_warning_logged = false ∧
      (classify_step st r1).rmState.min_limit_warning_logged = false) ∧
    (r1 < min_position_ratio →
      (classify_step st r1).rmState.max_limit_warning_logged = false) ∧
    (r1 > max_position_ratio →
      (classify_step st r1).rmState.min_limit_warning_logged = false) ∧
    (st.max_limit_warning_logged = false → r1 > max_position_ratio →
      ¬ r2 > max_position_ratio → ¬ r2 < min_position_ratio →
      r3 > max_position_ratio →
      count_event .maxLimitWarning (run_ratios st [r1, r2, r3]).2 = 2) ∧
    ((st.min_limit_warning_logged = true ∨ st.max_limit_warning_logged = true) →
      ¬ r1 > max_position_ratio → ¬ r1 < min_position_ratio →
      ¬ r2 > max_position_ratio → ¬ r2 < min_position_ratio →
      count_event .recoveredInfo (run_ratios st [r1, r2]).2 = 1) := by
  refine ⟨?_, ?_, ?_, ?_, ?_, ?_⟩
  · intro h0 h1 h2
    have f1 : (classify_step st r1).rmState.max_limit_warning_logged = true :=
      (classify_step_max_flag st r1).mpr h1
    simp [run_ratios, count_event_append, classify_step_count_max, h0, h1, h2, f1,
      count_event]
  · intro h1 h2
    constructor <;> (simp only [classify_step]; split_ifs <;> simp_all)
  · intro h1
    have hmax : ¬ r1 > max_position_ratio := by
      rw [min_position_ratio] at h1
      rw [max_position_ratio]
      linarith
    simp only [classify_step]
    split_ifs <;> simp_all
  · intro h1
    simp only [classify_step]
    split_ifs <;> simp_all
  · intro h0 h1 h2safe1 h2safe2 h3
    have f1 : (classify_step st r1).rmState.max_limit_warning_logged = true :=
      (classify_step_max_flag st r1).mpr h1
    have f2 : (classify_step (classify_step st r1).rmState r2).rmState.max_limit_warning_logged
        = false := by
      simp only [classify_step]
      split_ifs <;> simp_all
    simp [run_ratios, count_event_append, classify_step_count_max, h0, h1, h2safe1, h3, f1, f2,
      count_event]
  · intro h0 h1safe1 h1safe2 h2safe1 h2safe2
    have f1max : (classify_step st r1).rmState.max_limit_warning_logged = false := by
      simp only [classify_step]
      split_ifs <;> simp_all
    have f1min : (classify_step st r1).rmState.min_limit_warning_logged = false := by
      simp only [classify_step]
      split_ifs <;> simp_all
    simp [run_ratios, count_event_append, classify_step_count_recovered,
      h0, h1safe1, h1safe2, h2safe1, h2safe2, f1max, f1min, count_event]

/-- Witness for the C9 logging-discipline theorem at concrete ratios
(0.9 breaches MAX, 0.5 is safe, 0.05 breaches MIN). -/
theorem breach_warning_discipline_witness :
    count_event .maxLimitWarning
      (run_ratios { min_limit_warning_logged := false
                    max_limit_warning_logged := false
                    last_position_ratio := none } [9/10, 9/10]).2 = 1 ∧
    count_event .maxLimitWarning
      (run_ratios { min_limit_warning_logged := false
                    max_limit_warning_logged := false
                    last_position_ratio := none } [9/10, 1/2, 95/100]).2 = 2 ∧
    count_event .recoveredInfo
      (run_ratios { min_limit_warning_logged := false
                    max_limit_warning_logged := true
                    last_position_ratio := none } [1/2, 1/2]).2 = 1 ∧
    ((classify_step { min_limit_warning_logged := false
                      max_limit_warning_logged := true
                      last_position_ratio := none } (1/2)).rmState.max_limit_warning_logged
        = false ∧
      (classify_step { min_limit_warning_logged := false
                       max_limit_warning_logged := true
                       last_position_ratio := none } (1/2)).rmState.min_limit_warning_logged
        = false) ∧
    (classify_step { min_limit_warning_logged := false
                     max_limit_warning_logged := true
                     last_position_ratio := none } (1/20)).rmState.max_limit_warning_logged
      = false ∧
    (classify_step { min_limit_warning_logged := true
                     max_limit_warning_logged := false
                     last_position_ratio := none } (9/10)).rmState.min_limit_warning_logged
      = false := by
  have hgt : (9:ℚ)/10 > max_position_ratio := of_decide_eq_true (by with_unfolding_all rfl)
  have hgt3 : (95:ℚ)/100 > max_position_ratio := of_decide_eq_true (by with_unfolding_all rfl)
  have hs1 : ¬ (1:ℚ)/2 > max_position_ratio := of_decide_eq_true (by with_unfolding_all rfl)
  have hs2 : ¬ (1:ℚ)/2 < min_position_ratio := of_decide_eq_true (by with_unfolding_all rfl)
  have hlt : (1:ℚ)/20 < min_position_ratio := of_decide_eq_true (by with_unfolding_all rfl)
  exact ⟨(breach_warning_discipline
      { min_limit_warning_logged := false
        max_limit_warning_logged := false
        last_position_ratio := none } (9/10) (9/10) 0).1 rfl hgt hgt,
    (breach_warning_discipline
      { min_limit_warning_logged := false
        max_limit_warning_logged := false
        last_position_ratio := none } (9/10) (1/2) (95/100)).2.2.2.2.1 rfl hgt hs1 hs2 hgt3,
    (breach_warning_discipline
      { min_limit_warning_logged := false
        max_limit_warning_logged := true
        last_position_ratio := none } (1/2) (1/2) 0).2.2.2.2.2 (Or.inr rfl) hs1 hs2 hs1 hs2,
    (breach_warning_discipline
      { min_limit_warning_logged := false
        max_limit_warning_logged := true
        last_position_ratio := none } (1/2) 0 0).2.1 hs1 hs2,
    (breach_warning_discipline
      { min_limit_warning_logged := false
        max_limit_warning_logged := true
        last_position_ratio := none } (1/20) 0 0).2.2.1 hlt,
    (breach_warning_discipline
      { min_limit_warning_logged := true
        max_limit_warning_logged := false
        last_position_ratio := none } (9/10) 0 0).2.2.2.1 hgt⟩

theorem completed_window_eq (lookback : Nat) (klines : List Candle)
    (h : lookback + 1 ≤ klines.length) :
    completed_window lookback klines =
      (klines.drop (klines.length - (lookback + 1))).take lookback := by
  unfold completed_window
  rw [List.dropLast_eq_take, List.drop_take]
  have e1 : klines.length - 1 - lookback = klines.length - (lookback + 1) := by omega
  rw [e1]
  have e2 : klines.length - 1 - (klines.length - (lookback + 1)) = lookback := by omega
  rw [e2]

/-- C4: with fewer than lookback + 1 candles the band is left unchanged;
otherwise the band is computed over exactly the lookback most recent
completed candles (the newest excluded): dailyHigh is the max of their
highs, dailyLow the min of their lows; with lookback 52 and exactly 54
candles the window is the candles at indices 1 .. 52 (drop 1, take 52). -/
theorem s1_band_window (lookback : Nat) (klines : List Candle) (st : S1State) (now : ℚ) :
    (klines.length < lookback + 1 →
      fetch_and_calculate_s1_levels lookback (.ok klines) now st = (st, false)) ∧
    (lookback + 1 ≤ klines.length →
      fetch_and_calculate_s1_levels lookback (.ok klines) now st =
        ({ s1_daily_high := some (max_high (completed_window lookback klines))
           s1_daily_low := some (min_low (completed_window lookback klines))
           s1_last_data_update_ts := now }, true)) ∧
    (klines.length = 54 → lookback = 52 →
      completed_window lookback klines = (klines.drop 1).take 52) := by
  refine ⟨?_, ?_, ?_⟩
  · intro h
    simp only [fetch_and_calculate_s1_levels]
    rw [if_pos (Or.inr h)]
  · intro h
    have hguard : ¬ (klines.isEmpty = true ∨ klines.length < lookback + 1) := by
      push_neg
      refine ⟨?_, by omega⟩
      cases klines with
      | nil => simp at h
      | cons a l => simp
    have hlen : ((klines.drop (klines.length - (lookback + 1))).take lookback).length
        = lookback := by
      rw [List.length_take, List.length_drop]
      omega
    simp only [fetch_and_calculate_s1_levels]
    rw [if_neg hguard, if_neg (by omega : ¬ _ < lookback), completed_window_eq lookback klines h]
  · intro h54 h52
    subst h52
    rw [completed_window_eq 52 klines (by omega), h54]

/-- Witness for the C4 band-window theorem: an empty fetch leaves the band
unchanged; four candles with lookback 2 produce the band over the middle
two candles; 54 candles with lookback 52 use indices 1 .. 52. -/
theorem s1_band_window_witness :
    fetch_and_calculate_s1_levels 52 (.ok []) 7
      { s1_daily_high := none, s1_daily_low := none, s1_last_data_update_ts := 0 } =
      ({ s1_daily_high := none, s1_daily_low := none, s1_last_data_update_ts := 0 }, false) ∧
    fetch_and_calculate_s1_levels 2
        (.ok [{ high := 1, low := 1 }, { high := 5, low := 0 },
              { high := 3, low := 2 }, { high := 9, low := 9 }]) 7
        { s1_daily_high := none, s1_daily_low := none, s1_last_data_update_ts := 0 } =
      ({ s1_daily_high := some (max_high (completed_window 2
            [{ high := 1, low := 1 }, { high := 5, low := 0 },
             { high := 3, low := 2 }, { high := 9, low := 9 }]))
         s1_daily_low := some (min_low (completed_window 2
            [{ high := 1, low := 1 }, { high := 5, low := 0 },
             { high := 3, low := 2 }, { high := 9, low := 9 }]))
         s1_last_data_update_ts := 7 }, true) ∧
    completed_window 52 (List.replicate 54 ({ high := 2, low := 1 } : Candle)) =
      ((List.replicate 54 ({ high := 2, low := 1 } : Candle)).drop 1).take 52 :=
  ⟨(s1_band_window 52 []
      { s1_daily_high := none, s1_daily_low := none, s1_last_data_update_ts := 0 } 7).1
      (by decide),
   (s1_band_window 2
      [{ high := 1, low := 1 }, { high := 5, low := 0 },
       { high := 3, low := 2 }, { high := 9, low := 9 }]
      { s1_daily_high := none, s1_daily_low := none, s1_last_data_update_ts := 0 } 7).2.1
      (by decide),
   (s1_band_window 52 (List.replicate 54 ({ high := 2, low := 1 } : Candle))
      { s1_daily_high := none, s1_daily_low := none, s1_last_data_update_ts := 0 } 7).2.2
      rfl rfl⟩

/-- C5: whenever the band refresh does not complete successfully (fetch
exception or insufficient data, i.e. it returns false), the previous band
state — dailyHigh, dailyLow and the update timestamp — is retained
entirely unchanged; no partial overwrite occurs. -/
theorem s1_band_fail_soft (lookback : Nat) (fetchOhlcv : Except Unit (List Candle))
    (now : ℚ) (st : S1State)
    (h : (fetch_and_calculate_s1_levels lookback fetchOhlcv now st).2 = false) :
    (fetch_and_calculate_s1_levels lookback fetchOhlcv now st).1 = st := by
  cases fetchOhlcv with
  | error e => rfl
  | ok klines =>
    simp only [fetch_and_calculate_s1_levels] at h ⊢
    split_ifs at h ⊢ <;> simp_all

/-- Witness for the C5 fail-soft theorem: a fetch exception and an
insufficient (one-candle) fetch both leave the band untouched. -/
theorem s1_band_fail_soft_witness :
    ((fetch_and_calculate_s1_levels 52 (.error ()) 9
        { s1_daily_high := some 5, s1_daily_low := some 2, s1_last_data_update_ts := 3 }).2
      = false ∧
    (fetch_and_calculate_s1_levels 52 (.error ()) 9
        { s1_daily_high := some 5, s1_daily_low := some 2, s1_last_data_update_ts := 3 }).1
      = { s1_daily_high := some 5, s1_daily_low := some 2, s1_last_data_update_ts := 3 }) ∧
    ((fetch_and_calculate_s1_levels 52 (.ok [{ high := 1, low := 1 }]) 9
        { s1_daily_high := some 5, s1_daily_low := some 2, s1_last_data_update_ts := 3 }).2
      = false ∧
    (fetch_and_calculate_s1_levels 52 (.ok [{ high := 1, low := 1 }]) 9
        { s1_daily_high := some 5, s1_daily_low := some 2, s1_last_data_update_ts := 3 }).1
      = { s1_daily_high := some 5, s1_daily_low := some 2, s1_last_data_update_ts := 3 }) :=
  ⟨⟨rfl, s1_band_fail_soft 52 (.error ()) 9
      { s1_daily_high := some 5, s1_daily_low := some 2, s1_last_data_update_ts := 3 } rfl⟩,
   ⟨rfl, s1_band_fail_soft 52 (.ok [{ high := 1, low := 1 }]) 9
      { s1_daily_high := some 5, s1_daily_low := some 2, s1_last_data_update_ts := 3 } rfl⟩⟩

/-- C6: on a successful balance read with positive equity and price, the
target sizing computes targetNotional = equity * targetPct * leverage and
targetContracts = targetNotional / price floored to 3 decimal places (the
default precision); equity 1000, targetPct 0.5, leverage 10, price 50000
give targetNotional 5000 and targetContracts 0.1. -/
theorem target_sizing_formula (equity target_pct current_price leverage : ℚ)
    (hE : 0 < equity) (_hP : 0 < current_price) :
    calculate_target_position_size leverage (.ok equity) target_pct current_price =
      ((Rat.floor (equity * target_pct * leverage / current_price * 10 ^ (3:ℕ)) : ℤ) : ℚ)
        / 10 ^ (3:ℕ) ∧
    (1000 : ℚ) * (1/2) * 10 = 5000 ∧
    (5000 : ℚ) / 50000 = 1/10 ∧
    calculate_target_position_size 10 (.ok 1000) (1/2) 50000 = 1/10 := by
  refine ⟨?_, by norm_num, by norm_num, ?_⟩
  · simp only [calculate_target_position_size]
    rw [if_neg (not_le.mpr hE)]
  · with_unfolding_all rfl

/-- Witness for the C6 target-sizing theorem at the spec's example. -/
theorem target_sizing_formula_witness :
    (0:ℚ) < 1000 ∧ (0:ℚ) < 50000 ∧
    calculate_target_position_size 10 (.ok 1000) (1/2) 50000 = 1/10 :=
  ⟨of_decide_eq_true (by with_unfolding_all rfl),
   of_decide_eq_true (by with_unfolding_all rfl),
   (target_sizing_formula 1000 (1/2) 50000 10
      (of_decide_eq_true (by with_unfolding_all rfl))
      (of_decide_eq_true (by with_unfolding_all rfl))).2.2.2⟩

/-- C7: under the default instrument limits, an intent whose amount is
below the 0.001 minimum contract size or whose notional is below the 10
USDT minimum is rejected before any order submission: no order call is
made, the method returns false, and no ledger entry is appended. -/
theorem order_gating_rejects_small (current_price : ℚ)
    (createOrder : Except Unit OrderResult) (hasOrderTracker : Bool)
    (side : OrderSide) (contracts_amount : ℚ)
    (h : contracts_amount < 1/1000 ∨ contracts_amount * current_price < 10) :
    execute_futures_adjustment current_price none createOrder hasOrderTracker side
        contracts_amount =
      { orderSubmitted := false, returnValue := false, ledger := [] } := by
  simp only [execute_futures_adjustment]
  split_ifs with h1 h2 h3 h4 h5 <;> try rfl
  all_goals rcases h with h | h
  all_goals first | exact absurd h h3 | exact absurd h h4

/-- Witness for the C7 gating theorem: 0.0001 contracts at price 50000
(notional 5 USDT) produce no order and no ledger entry. -/
theorem order_gating_rejects_small_witness :
    ((1:ℚ)/10000 < 1/1000 ∨ (1:ℚ)/10000 * 50000 < 10) ∧
    execute_futures_adjustment 50000 none (.ok { average := none, filled := none }) true
        .SELL (1/10000) =
      { orderSubmitted := false, returnValue := false, ledger := [] } :=
  ⟨Or.inr (of_decide_eq_true (by with_unfolding_all rfl)),
   order_gating_rejects_small 50000 (.ok { average := none, filled := none }) true
     .SELL (1/10000) (Or.inr (of_decide_eq_true (by with_unfolding_all rfl)))⟩

/-- Case analysis of one `check_and_execute` tick: either nothing happens,
or exactly one intent (SELL or BUY) is produced, executed when the risk
state permits that side and blocked otherwise. -/
theorem check_and_execute_cases (symbol : String) (st : S1State)
    (risk_state : RiskState) (inp : TickInputs) :
    check_and_execute symbol st risk_state inp = noTradeTick ∨
    (∃ a : ℚ, risk_state ≠ .ALLOW_BUY_ONLY ∧
      check_and_execute symbol st risk_state inp =
        { intents := [(.SELL, a)]
          execCall := some (.SELL, a)
          execResult := execute_futures_adjustment inp.current_price inp.symbol_info
            inp.createOrder inp.hasOrderTracker .SELL a }) ∨
    (∃ a : ℚ, risk_state = .ALLOW_BUY_ONLY ∧
      check_and_execute symbol st risk_state inp =
        { intents := [(.SELL, a)]
          execCall := none
          execResult := { orderSubmitted := false, returnValue := false, ledger := [] } }) ∨
    (∃ a : ℚ, risk_state ≠ .ALLOW_SELL_ONLY ∧
      check_and_execute symbol st risk_state inp =
        { intents := [(.BUY, a)]
          execCall := some (.BUY, a)
          execResult := execute_futures_adjustment inp.current_price inp.symbol_info
            inp.createOrder inp.hasOrderTracker .BUY a }) ∨
    (∃ a : ℚ, risk_state = .ALLOW_SELL_ONLY ∧
      check_and_execute symbol st risk_state inp =
        { intents := [(.BUY, a)]
          execCall := none
          execResult := { orderSubmitted := false, returnValue := false, ledger := [] } }) := by
  simp only [check_and_execute]
  repeat' split
  all_goals
    first
      | exact Or.inl rfl
      | (rename_i hrisk; exact Or.inr (Or.inl ⟨_, hrisk, rfl⟩))
      | (rename_i hrisk; exact Or.inr (Or.inr (Or.inl ⟨_, not_not.mp hrisk, rfl⟩)))
      | (rename_i hrisk; exact Or.inr (Or.inr (Or.inr (Or.inl ⟨_, hrisk, rfl⟩))))
      | (rename_i hrisk; exact Or.inr (Or.inr (Or.inr (Or.inr ⟨_, not_not.mp hrisk, rfl⟩))))

/-- C3: in every tick, a SELL intent is handed to the execution step
exactly when the risk state is not ALLOW_BUY_ONLY and a BUY intent exactly
when it is not ALLOW_SELL_ONLY; under ALLOW_BUY_ONLY no SELL execution
call is ever made (and under ALLOW_SELL_ONLY no BUY call), and when no
execution call is made nothing is submitted and the ledger stays empty. -/
theorem risk_gating_sound (symbol : String) (st : S1State) (risk_state : RiskState)
    (inp : TickInputs) :
    (∀ a : ℚ, (.SELL, a) ∈ (check_and_execute symbol st risk_state inp).intents →
      ((check_and_execute symbol st risk_state inp).execCall = some (.SELL, a) ↔
        risk_state ≠ .ALLOW_BUY_ONLY)) ∧
    (∀ a : ℚ, (.BUY, a) ∈ (check_and_execute symbol st risk_state inp).intents →
      ((check_and_execute symbol st risk_state inp).execCall = some (.BUY, a) ↔
        risk_state ≠ .ALLOW_SELL_ONLY)) ∧
    (risk_state = .ALLOW_BUY_ONLY →
      ∀ a : ℚ, (check_and_execute symbol st risk_state inp).execCall ≠ some (.SELL, a)) ∧
    (risk_state = .ALLOW_SELL_ONLY →
      ∀ a : ℚ, (check_and_execute symbol st risk_state inp).execCall ≠ some (.BUY, a)) ∧
    ((check_and_execute symbol st risk_state inp).execCall = none →
      (check_and_execute symbol st risk_state inp).execResult =
        { orderSubmitted := false, returnValue := false, ledger := [] }) := by
  rcases check_and_execute_cases symbol st risk_state inp with
    hEq | ⟨a, hne, hEq⟩ | ⟨a, heq, hEq⟩ | ⟨a, hne, hEq⟩ | ⟨a, heq, hEq⟩ <;>
    rw [hEq]
  · simp [noTradeTick]
  · simp [hne]
  · subst heq
    simp
  · simp [hne]
  · subst heq
    simp

/-- Witness for the C3 gating theorem: at a tick that produces a SELL
intent for 10 contracts, the execution call is made exactly when the risk
state allows selling, and under ALLOW_BUY_ONLY no SELL call occurs. -/
theorem risk_gating_sound_witness :
    ((OrderSide.SELL, (10:ℚ)) ∈
      (check_and_execute "BNB/USDT"
        { s1_daily_high := some 100, s1_daily_low := some 50, s1_last_data_update_ts := 0 }
        .ALLOW_ALL
        { current_price := 200
          fetchPositions := .ok [{ symbol := "BNB/USDT", side := some .long, contracts := 10 }]
          fetchBalanceTick := .ok 1
          fetchBalanceSizing := .error ()
          symbol_info := none
          createOrder := .ok { average := none, filled := none }
          hasOrderTracker := true }).intents) ∧
    ((check_and_execute "BNB/USDT"
        { s1_daily_high := some 100, s1_daily_low := some 50, s1_last_data_update_ts := 0 }
        .ALLOW_ALL
        { current_price := 200
          fetchPositions := .ok [{ symbol := "BNB/USDT", side := some .long, contracts := 10 }]
          fetchBalanceTick := .ok 1
          fetchBalanceSizing := .error ()
          symbol_info := none
          createOrder := .ok { average := none, filled := none }
          hasOrderTracker := true }).execCall = some (.SELL, 10) ↔
      RiskState.ALLOW_ALL ≠ RiskState.ALLOW_BUY_ONLY) ∧
    (∀ a : ℚ, (check_and_execute "BNB/USDT"
        { s1_daily_high := some 100, s1_daily_low := some 50, s1_last_data_update_ts := 0 }
        .ALLOW_BUY_ONLY
        { current_price := 200
          fetchPositions := .ok [{ symbol := "BNB/USDT", side := some .long, contracts := 10 }]
          fetchBalanceTick := .ok 1
          fetchBalanceSizing := .error ()
          symbol_info := none
          createOrder := .ok { average := none, filled := none }
          hasOrderTracker := true }).execCall ≠ some (.SELL, a)) := by
  have pf : (OrderSide.SELL, (10:ℚ)) ∈
      (check_and_execute "BNB/USDT"
        { s1_daily_high := some 100, s1_daily_low := some 50, s1_last_data_update_ts := 0 }
        .ALLOW_ALL
        { current_price := 200
          fetchPositions := .ok [{ symbol := "BNB/USDT", side := some .long, contracts := 10 }]
          fetchBalanceTick := .ok 1
          fetchBalanceSizing := .error ()
          symbol_info := none
          createOrder := .ok { average := none, filled := none }
          hasOrderTracker := true }).intents :=
    of_decide_eq_true (by with_unfolding_all rfl)
  exact ⟨pf,
    (risk_gating_sound "BNB/USDT"
      { s1_daily_high := some 100, s1_daily_low := some 50, s1_last_data_update_ts := 0 }
      .ALLOW_ALL
      { current_price := 200
        fetchPositions := .ok [{ symbol := "BNB/USDT", side := some .long, contracts := 10 }]
        fetchBalanceTick := .ok 1
        fetchBalanceSizing := .error ()
        symbol_info := none
        createOrder := .ok { average := none, filled := none }
        hasOrderTracker := true }).1 10 pf,
    (risk_gating_sound "BNB/USDT"
      { s1_daily_high := some 100, s1_daily_low := some 50, s1_last_data_update_ts := 0 }
      .ALLOW_BUY_ONLY
      { current_price := 200
        fetchPositions := .ok [{ symbol := "BNB/USDT", side := some .long, contracts := 10 }]
        fetchBalanceTick := .ok 1
        fetchBalanceSizing := .error ()
        symbol_info := none
        createOrder := .ok { average := none, filled := none }
        hasOrderTracker := true }).2.2.1 rfl⟩

/-- C8: every `check_and_execute` call produces at most one intent, SELL
and BUY intents are mutually exclusive in a tick, and whenever the
upper-breach price/ratio condition holds the lower-breach rule is not
evaluated: no BUY intent can be produced in that tick. -/
theorem at_most_one_intent (symbol : String) (st : S1State) (risk_state : RiskState)
    (inp : TickInputs) :
    (check_and_execute symbol st risk_state inp).intents.length ≤ 1 ∧
    (∀ a b : ℚ, (.SELL, a) ∈ (check_and_execute symbol st risk_state inp).intents →
      (.BUY, b) ∈ (check_and_execute symbol st risk_state inp).intents → False) ∧
    (∀ hi lo ts total : ℚ,
      st = { s1_daily_high := some hi, s1_daily_low := some lo,
             s1_last_data_update_ts := ts } →
      inp.fetchBalanceTick = .ok total →
      inp.current_price > hi →
      |(get_current_position symbol inp.fetchPositions).contracts| * inp.current_price /
          (total * s1_leverage) > s1_sell_target_pct →
      ∀ b : ℚ, ¬ (.BUY, b) ∈ (check_and_execute symbol st risk_state inp).intents) := by
  refine ⟨?_, ?_, ?_⟩
  · rcases check_and_execute_cases symbol st risk_state inp with
      hEq | ⟨a, hne, hEq⟩ | ⟨a, heq, hEq⟩ | ⟨a, hne, hEq⟩ | ⟨a, heq, hEq⟩ <;>
      simp [hEq, noTradeTick]
  · rcases check_and_execute_cases symbol st risk_state inp with
      hEq | ⟨a, hne, hEq⟩ | ⟨a, heq, hEq⟩ | ⟨a, hne, hEq⟩ | ⟨a, heq, hEq⟩ <;>
      simp [hEq, noTradeTick]
  · intro hi lo ts total hst hbal hpx hpct b
    subst hst
    simp only [check_and_execute]
    by_cases hp : inp.current_price ≤ 0
    · simp [hp, noTradeTick]
    · rw [if_neg hp, hbal]
      dsimp only
      by_cases ht : total ≤ 0
      · simp [ht, noTradeTick]
      · rw [if_neg ht, if_pos ⟨hpx, hpct⟩]
        split
        · split
          · simp
          · simp
        · simp [noTradeTick]

/-- Witness for the C8 theorem at a tick whose upper-breach condition
holds: at most one intent is produced and no BUY intent appears. -/
theorem at_most_one_intent_witness :
    (check_and_execute "BNB/USDT"
      { s1_daily_high := some 100, s1_daily_low := some 50, s1_last_data_update_ts := 0 }
      .ALLOW_ALL
      { current_price := 200
        fetchPositions := .ok [{ symbol := "BNB/USDT", side := some .long, contracts := 10 }]
        fetchBalanceTick := .ok 1
        fetchBalanceSizing := .error ()
        symbol_info := none
        createOrder := .ok { average := none, filled := none }
        hasOrderTracker := true }).intents.length ≤ 1 ∧
    ¬ (OrderSide.BUY, (5:ℚ)) ∈
      (check_and_execute "BNB/USDT"
        { s1_daily_high := some 100, s1_daily_low := some 50, s1_last_data_update_ts := 0 }
        .ALLOW_ALL
        { current_price := 200
          fetchPositions := .ok [{ symbol := "BNB/USDT", side := some .long, contracts := 10 }]
          fetchBalanceTick := .ok 1
          fetchBalanceSizing := .error ()
          symbol_info := none
          createOrder := .ok { average := none, filled := none }
          hasOrderTracker := true }).intents := by
  have hpx : (200:ℚ) > 100 := of_decide_eq_true (by with_unfolding_all rfl)
  have hpct : |(get_current_position "BNB/USDT"
      (.ok [{ symbol := "BNB/USDT", side := some .long, contracts := 10 }] :
        Except Unit (List FPositionEntry))).contracts| * (200:ℚ) /
      ((1:ℚ) * s1_leverage) > s1_sell_target_pct :=
    of_decide_eq_true (by with_unfolding_all rfl)
  exact ⟨(at_most_one_intent "BNB/USDT"
      { s1_daily_high := some 100, s1_daily_low := some 50, s1_last_data_update_ts := 0 }
      .ALLOW_ALL
      { current_price := 200
        fetchPositions := .ok [{ symbol := "BNB/USDT", side := some .long, contracts := 10 }]
        fetchBalanceTick := .ok 1
        fetchBalanceSizing := .error ()
        symbol_info := none
        createOrder := .ok { average := none, filled := none }
        hasOrderTracker := true }).1,
    (at_most_one_intent "BNB/USDT"
      { s1_daily_high := some 100, s1_daily_low := some 50, s1_last_data_update_ts := 0 }
      .ALLOW_ALL
      { current_price := 200
        fetchPositions := .ok [{ symbol := "BNB/USDT", side := some .long, contracts := 10 }]
        fetchBalanceTick := .ok 1
        fetchBalanceSizing := .error ()
        symbol_info := none
        createOrder := .ok { average := none, filled := none }
        hasOrderTracker := true }).2.2 100 50 0 1 rfl rfl hpx hpct 5⟩

/-- C10: when the upper-breach conditions hold (price above the band high,
ratio above the sell target, long side, positive contracts) and the
balance read inside target sizing fails or reports non-positive equity,
the target size is 0 and the tick emits a SELL intent for the entire
current contract count, executed whenever the risk state is not
ALLOW_BUY_ONLY. -/
theorem sizing_failure_sells_entire_position (symbol : String)
    (hi lo ts total c : ℚ) (risk_state : RiskState) (inp : TickInputs)
    (hpos : 0 < inp.current_price)
    (hpx : inp.current_price > hi)
    (hbal : inp.fetchBalanceTick = .ok total) (htot : 0 < total)
    (hcp : get_current_position symbol inp.fetchPositions =
      { side := some .long, contracts := c })
    (hc : 0 < c)
    (hpct : |c| * inp.current_price / (total * s1_leverage) > s1_sell_target_pct)
    (hsize : inp.fetchBalanceSizing = .error () ∨
      ∃ t : ℚ, inp.fetchBalanceSizing = .ok t ∧ t ≤ 0) :
    (check_and_execute symbol
        { s1_daily_high := some hi, s1_daily_low := some lo,
          s1_last_data_update_ts := ts } risk_state inp).intents = [(.SELL, c)] ∧
    (risk_state ≠ .ALLOW_BUY_ONLY →
      (check_and_execute symbol
        { s1_daily_high := some hi, s1_daily_low := some lo,
          s1_last_data_update_ts := ts } risk_state inp).execCall = some (.SELL, c)) := by
  have htarget : calculate_target_position_size s1_leverage inp.fetchBalanceSizing
      s1_sell_target_pct inp.current_price = 0 := by
    rcases hsize with h | ⟨t, h, ht⟩
    · simp [calculate_target_position_size, h]
    · simp [calculate_target_position_size, h, ht]
  have hmain : check_and_execute symbol
      { s1_daily_high := some hi, s1_daily_low := some lo,
        s1_last_data_update_ts := ts } risk_state inp =
      (if risk_state ≠ .ALLOW_BUY_ONLY then
        { intents := [(.SELL, c)]
          execCall := some (.SELL, c)
          execResult := execute_futures_adjustment inp.current_price inp.symbol_info
            inp.createOrder inp.hasOrderTracker .SELL c }
      else
        { intents := [(.SELL, c)]
          execCall := none
          execResult := { orderSubmitted := false, returnValue := false, ledger := [] } }) := by
    simp only [check_and_execute]
    rw [if_neg (not_le.mpr hpos), hbal]
    dsimp only
    rw [if_neg (not_le.mpr htot), hcp]
    dsimp only
    rw [if_pos ⟨hpx, hpct⟩, htarget, if_pos ⟨rfl, hc⟩]
    simp [sub_zero]
  constructor
  · rw [hmain]
    split <;> rfl
  · intro hrisk
    rw [hmain, if_pos hrisk]

/-- Witness for the C10 theorem: a failed sizing balance read during an
upper breach makes the tick sell the entire 10-contract position. -/
theorem sizing_failure_sells_entire_position_witness :
    (check_and_execute "BNB/USDT"
      { s1_daily_high := some 100, s1_daily_low := some 50, s1_last_data_update_ts := 0 }
      .ALLOW_ALL
      { current_price := 200
        fetchPositions := .ok [{ symbol := "BNB/USDT", side := some .long, contracts := 10 }]
        fetchBalanceTick := .ok 1
        fetchBalanceSizing := .error ()
        symbol_info := none
        createOrder := .ok { average := none, filled := none }
        hasOrderTracker := true }).intents = [(.SELL, 10)] ∧
    (RiskState.ALLOW_ALL ≠ RiskState.ALLOW_BUY_ONLY →
      (check_and_execute "BNB/USDT"
        { s1_daily_high := some 100, s1_daily_low := some 50, s1_last_data_update_ts := 0 }
        .ALLOW_ALL
        { current_price := 200
          fetchPositions := .ok [{ symbol := "BNB/USDT", side := some .long, contracts := 10 }]
          fetchBalanceTick := .ok 1
          fetchBalanceSizing := .error ()
          symbol_info := none
          createOrder := .ok { average := none, filled := none }
          hasOrderTracker := true }).execCall = some (.SELL, 10)) :=
  sizing_failure_sells_entire_position "BNB/USDT" 100 50 0 1 10 .ALLOW_ALL
    { current_price := 200
      fetchPositions := .ok [{ symbol := "BNB/USDT", side := some .long, contracts := 10 }]
      fetchBalanceTick := .ok 1
      fetchBalanceSizing := .error ()
      symbol_info := none
      createOrder := .ok { average := none, filled := none }
      hasOrderTracker := true }
    (of_decide_eq_true (by with_unfolding_all rfl))
    (of_decide_eq_true (by with_unfolding_all rfl))
    rfl
    (of_decide_eq_true (by with_unfolding_all rfl))
    (by with_unfolding_all rfl)
    (of_decide_eq_true (by with_unfolding_all rfl))
    (of_decide_eq_true (by with_unfolding_all rfl))
    (Or.inl rfl)

end GridBNB
